import Mathlib

/-!
Shallow embedding of the picking-list generation system (src/) in Lean 4.

A spreadsheet cell is modelled by `Cell`: a blank cell (None / NaN), a text
cell, or a numeric cell.  A matrix row is a list of cells addressed by
position; pandas pads ragged rows with NaN, which `getCell` models with a
blank default.  Fallible stages return `Except PSError`.  Python `//` on
integers is floor division, modelled with `Int.fdiv`.
-/

set_option maxRecDepth 4000

namespace Picking

/-- Python str.strip(): leading and trailing whitespace removed.  Written over
the character list so that the kernel can evaluate it on literals. -/
def pyStrip (s : String) : String :=
  String.mk (((s.data.dropWhile Char.isWhitespace).reverse.dropWhile Char.isWhitespace).reverse)

/-- Python str.upper() restricted to the ASCII letters the part-number
patterns use, over the character list. -/
def pyUpper (s : String) : String :=
  String.mk (s.data.map Char.toUpper)

/-- Python s[:n] (also String.take), over the character list. -/
def pyTake (s : String) (n : Nat) : String :=
  String.mk (s.data.take n)

/-- Whether pat is a prefix of s, over the character lists. -/
def headMatches (pat : String) (s : String) : Bool :=
  decide (s.data.take pat.data.length = pat.data)

/-- A spreadsheet cell as seen through pandas: blank (None/NaN), text, or numeric. -/
inductive Cell where
  | blank : Cell
  | str : String → Cell
  | int : Int → Cell
deriving DecidableEq, Repr

abbrev Row := List Cell

/-- Cell access by position; pandas pads missing trailing cells with NaN. -/
def getCell (row : Row) (idx : Nat) : Cell := row.getD idx Cell.blank

/-- Number of columns of the data frame: the widest row. -/
def dfWidth (m : List Row) : Nat := m.foldl (fun acc r => max acc r.length) 0

/-- utils.safe_str: None/NaN becomes the default "", otherwise str(value).strip(). -/
def safe_str : Cell → String
  | Cell.blank => ""
  | Cell.str s => pyStrip s
  | Cell.int n => pyStrip (toString n)

/-- utils.safe_int: None/NaN becomes 0, otherwise int(value); an unparsable
text cell falls back to the default 0. -/
def safe_int : Cell → Int
  | Cell.blank => 0
  | Cell.str s => match (pyStrip s).toInt? with
      | some n => n
      | none => 0
  | Cell.int n => n

/-! config.py constants -/

def MATRIX_START_PART : Nat := 1
def MATRIX_FACTORY : Nat := 2
def MATRIX_PART_NUMBER : Nat := 4
def MATRIX_PART_NAME : Nat := 5
def MATRIX_SPEC : Nat := 6
def MATRIX_QUANTITY : Nat := 9

/-- config.OPTION_START_COL -/
def OPTION_START_COL : Nat := 11

/-- config.EXCLUDE_PART_PATTERNS: the regexes ^FRAME, ^SET, ^KIT are
case-insensitive prefix matches, kept here as the prefix literals. -/
def EXCLUDE_PART_PATTERNS : List String := ["FRAME", "SET", "KIT"]

/-- config.VALIDATION.required_headers, in insertion (iteration) order. -/
def required_headers : List (Nat × String) :=
  [(0, "No"), (1, "起点部品番号"), (2, "工場"), (4, "部品番号")]

/-! utils.py: validation and classification -/

/-- Case-insensitive prefix match, modelling re.match(pattern, s, re.IGNORECASE)
for an anchored literal pattern. -/
def matches_exclude (pattern : String) (s : String) : Bool :=
  headMatches pattern (pyUpper s)

/-- A head literal followed by six digits, modelling regexes such as ^CM\d{6}
matched case-insensitively. -/
def headThenSixDigits (headLit : String) (s : String) : Bool :=
  let u := (pyUpper s).data
  let pl := headLit.toList
  decide (u.take pl.length = pl) &&
    decide (((u.drop pl.length).take 6).length = 6) &&
    ((u.drop pl.length).take 6).all (fun c => c.isDigit)

/-- config.CM_PART_PATTERNS: ^CM\d{6} or ^C-\d{6}. -/
def matches_cm_pattern (s : String) : Bool :=
  headThenSixDigits "CM" s || headThenSixDigits "C-" s

/-- config.A_PARTS_PATTERNS: ^A\d{6} or ^AP-\d{6}. -/
def matches_a_parts_pattern (s : String) : Bool :=
  headThenSixDigits "A" s || headThenSixDigits "AP-" s

/-- utils.is_valid_part_number -/
def is_valid_part_number (part_number : String) : Bool :=
  if part_number = "" then false
  else
    let p := pyStrip part_number
    if p = "" then false
    else if p.length < 6 || 20 < p.length then false
    else if EXCLUDE_PART_PATTERNS.any (fun pat => matches_exclude pat p) then false
    else true

/-- models.PartType -/
inductive PartType where
  | CM
  | A_PARTS
  | FRAME
  | OTHER
deriving DecidableEq, Repr

/-- utils.identify_part_type -/
def identify_part_type (part_number : String) : PartType :=
  if part_number = "" then PartType.OTHER
  else
    let p := pyStrip part_number
    if matches_cm_pattern p then PartType.CM
    else if matches_a_parts_pattern p then PartType.A_PARTS
    else if headMatches "FRAME" (pyUpper p) then PartType.FRAME
    else PartType.OTHER

/-- Loop body of utils.extract_options: keep a trimmed cell value that is
truthy and not one of the placeholders "", "-", "nan". -/
def extract_option_step (row_data : Row) (options : List String) (col_idx : Nat) : List String :=
  let value := safe_str (getCell row_data col_idx)
  if value != "" && !(value == "" || value == "-" || value == "nan") then
    options ++ [value]
  else options

/-- utils.extract_options: walk the cells from the option start column to the
row's end. -/
def extract_options (row_data : Row) (option_start_col : Nat) : List String :=
  (List.range' option_start_col (row_data.length - option_start_col)).foldl
    (extract_option_step row_data) []

/-- A trimmed option cell value survives the filter in extract_options. -/
def option_keep (value : String) : Bool :=
  !(value == "" || value == "-" || value == "nan")

/-- utils.format_options -/
def format_options (options : List String) : String :=
  if options = [] then "" else String.intercalate " / " options

/-- utils.calculate_required_boxes; Python // is floor division (Int.fdiv). -/
def calculate_required_boxes (quantity : Int) (quantity_per_box : Int) : Int :=
  if quantity_per_box ≤ 0 then 0
  else (quantity + quantity_per_box - 1).fdiv quantity_per_box

/-! exceptions.py: a single family of error kinds rooted at PickingSystemError. -/

/-- The PickingSystemError family; each subclass carries its message. -/
inductive PSError where
  | fileNotFound (msg : String)
  | invalidFileFormat (msg : String)
  | validationError (msg : String)
  | masterDBError (msg : String)
  | processingError (msg : String)
  | referenceDBError (msg : String)
  | outputError (msg : String)
deriving DecidableEq, Repr

/-- str(e) of a PickingSystemError: its message. -/
def PSError.message : PSError → String
  | PSError.fileNotFound m => m
  | PSError.invalidFileFormat m => m
  | PSError.validationError m => m
  | PSError.masterDBError m => m
  | PSError.processingError m => m
  | PSError.referenceDBError m => m
  | PSError.outputError m => m

/-- The subclass (stage kind) of a PSError value. -/
inductive PSErrorKind where
  | fileNotFound
  | invalidFileFormat
  | validationError
  | masterDB
  | processing
  | referenceDB
  | output
deriving DecidableEq, Repr

def PSError.kind : PSError → PSErrorKind
  | PSError.fileNotFound _ => PSErrorKind.fileNotFound
  | PSError.invalidFileFormat _ => PSErrorKind.invalidFileFormat
  | PSError.validationError _ => PSErrorKind.validationError
  | PSError.masterDBError _ => PSErrorKind.masterDB
  | PSError.processingError _ => PSErrorKind.processing
  | PSError.referenceDBError _ => PSErrorKind.referenceDB
  | PSError.outputError _ => PSErrorKind.output

/-- The kind of the error of a failed stage, if it failed. -/
def errKind {α : Type} : Except PSError α → Option PSErrorKind
  | Except.error e => some e.kind
  | Except.ok _ => none

/-! Reading a spreadsheet file (utils.safe_read_excel): the outside world can
present a missing file, an unreadable file, or a table. -/

inductive ReadOutcome (α : Type) where
  | missing (path : String)
  | unreadable (msg : String)
  | ok (table : α)
deriving DecidableEq, Repr

/-- utils.safe_read_excel: missing file raises FileNotFoundError, any reader
failure raises InvalidFileFormatError. -/
def safe_read_excel {α : Type} : ReadOutcome α → Except PSError α
  | ReadOutcome.missing p =>
      Except.error (PSError.fileNotFound s!"ファイルが存在しません: {p}")
  | ReadOutcome.unreadable msg =>
      Except.error (PSError.invalidFileFormat s!"Excelファイル読み込みエラー: {msg}")
  | ReadOutcome.ok t => Except.ok t

/-! main.PickingSystemMain._validate_input_file (after the file has been read). -/

/-- models.ValidationResult -/
structure ValidationResult where
  is_valid : Bool
  errors : List String
  warnings : List String
deriving DecidableEq, Repr

/-- One iteration of the header loop in _validate_input_file: a missing column
or a mismatched header cell appends exactly one error. -/
def header_check_step (m : List Row) (errors : List String) (p : Nat × String) : List String :=
  let colNo := p.1 + 1
  let expected := p.2
  if dfWidth m ≤ p.1 then errors ++ [s!"列{colNo}が存在しません"]
  else
    let actual := safe_str (getCell (m.getD 0 []) p.1)
    if actual ≠ expected then
      errors ++ [s!"列{colNo}のヘッダーが不正です (期待値: {expected}, 実際: {actual})"]
    else errors

/-- All header errors collected by _validate_input_file, in order. -/
def headerErrors (m : List Row) : List String :=
  required_headers.foldl (header_check_step m) []

/-- Whether a required header cell fails its check (missing column or mismatch). -/
def header_cell_bad (m : List Row) (p : Nat × String) : Bool :=
  decide (dfWidth m ≤ p.1) || decide (safe_str (getCell (m.getD 0 []) p.1) ≠ p.2)

/-- The frame part number: row 1's part-number cell through safe_str. -/
def frame_part_number (m : List Row) : String :=
  safe_str (getCell (m.getD 1 []) MATRIX_PART_NUMBER)

/-- main.PickingSystemMain._validate_input_file, taking the already-read matrix
and the input file's stem. -/
def validate_input_file (input_stem : String) (m : List Row) : ValidationResult :=
  if m.length < 2 then ValidationResult.mk false ["データ行が存在しません"] []
  else
    let errors := headerErrors m
    if errors ≠ [] then ValidationResult.mk false errors []
    else
      let frame := frame_part_number m
      if frame = "" then ValidationResult.mk false ["フレーム品番が取得できません"] []
      else
        let file_head := if 10 ≤ input_stem.length then pyTake input_stem 10 else input_stem
        let frame_head := if 10 ≤ frame.length then pyTake frame 10 else frame
        let warnings :=
          if file_head ≠ frame_head then
            [s!"ファイル名とフレーム品番が一致しません (ファイル: {file_head}, フレーム: {frame_head})"]
          else []
        ValidationResult.mk true [] warnings

/-! processors/reference_db.py -/

/-- One row of the CM master catalog (config.CM_MASTER_DB columns). -/
structure CMMasterRow where
  part_number : Cell
  box_code : Cell
  box_name : Cell
  storage_location : Cell
deriving DecidableEq, Repr

/-- One row of the A-parts master catalog (config.A_PARTS_MASTER_DB columns). -/
structure AMasterRow where
  part_number : Cell
  part_name : Cell
  storage_location : Cell
  rack : Cell
  quantity_per_box : Cell
deriving DecidableEq, Repr

/-- The pandas elementwise comparison column == part_number: true only for a
text cell holding exactly that string. -/
def cellEqStr (c : Cell) (s : String) : Bool :=
  match c with
  | Cell.str t => t = s
  | _ => false

/-- The dict returned by ReferenceDBCreator._find_cm_master. -/
structure CMMasterHit where
  box_code : String
  box_name : String
  storage_location : String
deriving DecidableEq, Repr

/-- ReferenceDBCreator._find_cm_master: first catalog row whose part-number
column equals the part number; duplicates beyond the first are ignored. -/
def find_cm_master (master : List CMMasterRow) (part_number : String) : Option CMMasterHit :=
  match master.find? (fun r => cellEqStr r.part_number part_number) with
  | none => none
  | some r => some (CMMasterHit.mk (safe_str r.box_code) (safe_str r.box_name)
      (safe_str r.storage_location))

/-- The dict returned by ReferenceDBCreator._find_a_parts_master. -/
structure AMasterHit where
  part_name : String
  storage_location : String
  rack : String
  quantity_per_box : Int
deriving DecidableEq, Repr

/-- ReferenceDBCreator._find_a_parts_master. -/
def find_a_parts_master (master : List AMasterRow) (part_number : String) : Option AMasterHit :=
  match master.find? (fun r => cellEqStr r.part_number part_number) with
  | none => none
  | some r => some (AMasterHit.mk (safe_str r.part_name) (safe_str r.storage_location)
      (safe_str r.rack) (safe_int r.quantity_per_box))

/-- One row of the CM picking reference DB. -/
structure CMRefRow where
  no : Nat
  start_part_number : String
  factory : String
  part_number : String
  part_name : String
  spec : String
  box_code : String
  box_name : String
  storage_location : String
deriving DecidableEq, Repr

/-- One row of the A-parts picking reference DB. -/
structure ARefRow where
  no : Nat
  start_part_number : String
  factory : String
  part_number : String
  part_name : String
  storage_location : String
  rack : String
  quantity_per_box : Int
deriving DecidableEq, Repr

/-- Loop body of ReferenceDBCreator._create_cm_reference_db: skip the row on an
invalid part number, a non-CM classification, or a missing catalog entry;
otherwise append a reference row numbered len(acc) + 1. -/
def cm_ref_step (master : List CMMasterRow) (acc : List CMRefRow) (row : Row) : List CMRefRow :=
  let part_number := safe_str (getCell row MATRIX_PART_NUMBER)
  if ¬ is_valid_part_number part_number then acc
  else if identify_part_type part_number ≠ PartType.CM then acc
  else
    match find_cm_master master part_number with
    | none => acc
    | some hit =>
        acc ++ [CMRefRow.mk (acc.length + 1)
          (safe_str (getCell row MATRIX_START_PART))
          (safe_str (getCell row MATRIX_FACTORY))
          part_number
          (safe_str (getCell row MATRIX_PART_NAME))
          (safe_str (getCell row MATRIX_SPEC))
          hit.box_code hit.box_name hit.storage_location]

/-- ReferenceDBCreator._create_cm_reference_db: one pass over data rows 1.. -/
def create_cm_reference_db (m : List Row) (master : List CMMasterRow) : List CMRefRow :=
  (m.drop 1).foldl (cm_ref_step master) []

/-- Loop body of ReferenceDBCreator._create_a_parts_reference_db.  The catalog
hit's part_name is not used: the reference row's part-name field comes from the
matrix row's name cell. -/
def a_ref_step (master : List AMasterRow) (acc : List ARefRow) (row : Row) : List ARefRow :=
  let part_number := safe_str (getCell row MATRIX_PART_NUMBER)
  if ¬ is_valid_part_number part_number then acc
  else if identify_part_type part_number ≠ PartType.A_PARTS then acc
  else
    match find_a_parts_master master part_number with
    | none => acc
    | some hit =>
        acc ++ [ARefRow.mk (acc.length + 1)
          (safe_str (getCell row MATRIX_START_PART))
          (safe_str (getCell row MATRIX_FACTORY))
          part_number
          (safe_str (getCell row MATRIX_PART_NAME))
          hit.storage_location hit.rack hit.quantity_per_box]

/-- ReferenceDBCreator._create_a_parts_reference_db: one pass over data rows 1.. -/
def create_a_parts_reference_db (m : List Row) (master : List AMasterRow) : List ARefRow :=
  (m.drop 1).foldl (a_ref_step master) []

/-- ReferenceDBCreator._load_master_dbs: any failure while reading either
catalog is wrapped into MasterDBError. -/
def load_master_dbs (cmRead : ReadOutcome (List CMMasterRow))
    (aRead : ReadOutcome (List AMasterRow)) :
    Except PSError (List CMMasterRow × List AMasterRow) :=
  match safe_read_excel cmRead with
  | Except.error e =>
      let emsg := e.message
      Except.error (PSError.masterDBError s!"マスタDB読み込みエラー: {emsg}")
  | Except.ok cm =>
      match safe_read_excel aRead with
      | Except.error e =>
          let emsg := e.message
          Except.error (PSError.masterDBError s!"マスタDB読み込みエラー: {emsg}")
      | Except.ok a => Except.ok (cm, a)

/-- ReferenceDBCreator.create_reference_dbs: the whole stage body runs inside a
try/except that wraps ANY exception — including the MasterDBError raised by
_load_master_dbs — into ReferenceDBError. -/
def create_reference_dbs (m : List Row) (cmRead : ReadOutcome (List CMMasterRow))
    (aRead : ReadOutcome (List AMasterRow)) :
    Except PSError (List CMRefRow × List ARefRow) :=
  match load_master_dbs cmRead aRead with
  | Except.error e =>
      let emsg := e.message
      Except.error (PSError.referenceDBError s!"参照DB作成エラー: {emsg}")
  | Except.ok (cm, a) =>
      Except.ok (create_cm_reference_db m cm, create_a_parts_reference_db m a)

/-! processors/cm_picking.py and processors/a_parts_picking.py -/

/-- models.CMPickingRow -/
structure CMPickRow where
  no : Nat
  start_part_number : String
  factory : String
  part_number : String
  part_name : String
  spec : String
  quantity : Int
  box_code : String
  box_name : String
  storage_location : String
  options : String
deriving DecidableEq, Repr

/-- models.APartsPickingRow -/
structure APickRow where
  no : Nat
  start_part_number : String
  factory : String
  part_number : String
  part_name : String
  quantity : Int
  storage_location : String
  rack : String
  quantity_per_box : Int
  required_boxes : Int
  options : String
deriving DecidableEq, Repr

/-- The validation dict built by APartsPickingProcessor._create_validation_row. -/
structure AValRow where
  no : Nat
  part_number : String
  required_quantity : Int
  quantity_per_box : Int
  required_boxes : Int
  calculated_quantity : Int
  difference : Int
  verdict : String
deriving DecidableEq, Repr

/-- _find_matrix_row (identical in both picking processors): linear scan of the
data rows, first row whose part-number cell matches. -/
def find_matrix_row (m : List Row) (part_number : String) : Option Row :=
  (m.drop 1).find? (fun row => safe_str (getCell row MATRIX_PART_NUMBER) = part_number)

/-- CMPickingProcessor._create_picking_row. -/
def create_cm_picking_row (ref : CMRefRow) (matrix_row : Row) (row_number : Nat) : CMPickRow :=
  let quantity := safe_int (getCell matrix_row MATRIX_QUANTITY)
  let options := extract_options matrix_row OPTION_START_COL
  CMPickRow.mk row_number (pyStrip ref.start_part_number) (pyStrip ref.factory)
    (pyStrip ref.part_number) (pyStrip ref.part_name) (pyStrip ref.spec) quantity
    (pyStrip ref.box_code) (pyStrip ref.box_name) (pyStrip ref.storage_location)
    (format_options options)

/-- Loop body of CMPickingProcessor.create_cm_picking. -/
def cm_picking_step (m : List Row) (acc : List CMPickRow) (ref : CMRefRow) : List CMPickRow :=
  match find_matrix_row m (pyStrip ref.part_number) with
  | none => acc
  | some matrix_row => acc ++ [create_cm_picking_row ref matrix_row (acc.length + 1)]

/-- CMPickingProcessor.create_cm_picking. -/
def create_cm_picking (m : List Row) (refs : List CMRefRow) : List CMPickRow :=
  refs.foldl (cm_picking_step m) []

/-- APartsPickingProcessor._create_picking_row. -/
def create_a_picking_row (ref : ARefRow) (matrix_row : Row) (row_number : Nat) : APickRow :=
  let quantity := safe_int (getCell matrix_row MATRIX_QUANTITY)
  let quantity_per_box := ref.quantity_per_box
  let required_boxes := calculate_required_boxes quantity quantity_per_box
  let options := extract_options matrix_row OPTION_START_COL
  APickRow.mk row_number (pyStrip ref.start_part_number) (pyStrip ref.factory)
    (pyStrip ref.part_number) (pyStrip ref.part_name) quantity (pyStrip ref.storage_location)
    (pyStrip ref.rack) quantity_per_box required_boxes (format_options options)

/-- APartsPickingProcessor._create_validation_row. -/
def create_validation_row (p : APickRow) : AValRow :=
  let calculated_quantity := p.required_boxes * p.quantity_per_box
  let difference := calculated_quantity - p.quantity
  AValRow.mk p.no p.part_number p.quantity p.quantity_per_box p.required_boxes
    calculated_quantity difference (if 0 ≤ difference then "OK" else "NG")

/-- Loop body of APartsPickingProcessor.create_a_parts_picking: a matched row
emits one picking row (numbered by emitted count) and its validation row. -/
def a_picking_step (m : List Row) (acc : List APickRow × List AValRow) (ref : ARefRow) :
    List APickRow × List AValRow :=
  match find_matrix_row m (pyStrip ref.part_number) with
  | none => acc
  | some matrix_row =>
      let p := create_a_picking_row ref matrix_row (acc.1.length + 1)
      (acc.1 ++ [p], acc.2 ++ [create_validation_row p])

/-- APartsPickingProcessor.create_a_parts_picking. -/
def create_a_parts_picking (m : List Row) (refs : List ARefRow) :
    List APickRow × List AValRow :=
  refs.foldl (a_picking_step m) ([], [])

/-! processors/system_720.py -/

/-- models.System720Row -/
structure System720Row where
  slip_number : String
  line_number : Nat
  part_number : String
  quantity : Int
  unit : String
  delivery_date : String
  remarks : String
deriving DecidableEq, Repr

/-- The line built from one CM picking row in System720Generator.generate. -/
def cm_720_line (slip delivery : String) (row : CMPickRow) (n : Nat) : System720Row :=
  System720Row.mk slip n (pyStrip row.part_number) row.quantity "個" delivery (pyStrip row.options)

/-- The line built from one A-parts picking row in System720Generator.generate. -/
def a_720_line (slip delivery : String) (row : APickRow) (n : Nat) : System720Row :=
  System720Row.mk slip n (pyStrip row.part_number) row.quantity "個" delivery (pyStrip row.options)

/-- System720Generator.generate: all CM picking rows first, then — when an
A-parts table is present and non-empty — all A-parts picking rows, with one
shared running line number starting at 1. -/
def generate_720 (slip delivery : String) (df_cm_picking : List CMPickRow)
    (df_a_parts_picking : Option (List APickRow)) : List System720Row :=
  let st1 := df_cm_picking.foldl
    (fun st row => (st.1 ++ [cm_720_line slip delivery row st.2], st.2 + 1))
    (([] : List System720Row), 1)
  let st2 :=
    match df_a_parts_picking with
    | none => st1
    | some arows =>
        if arows.isEmpty then st1
        else arows.foldl
          (fun st row => (st.1 ++ [a_720_line slip delivery row st.2], st.2 + 1)) st1
  st2.1

/-- The rows of the optional A-parts picking table. -/
def a720rows : Option (List APickRow) → List APickRow
  | none => []
  | some l => l

/-- Rows paired with consecutive line numbers starting at start. -/
def numberRows {α : Type} (f : α → Nat → System720Row) (start : Nat) (l : List α) :
    List System720Row :=
  (l.zip (List.range' start l.length)).map (fun p => f p.1 p.2)

/-- Two A-parts catalog rows that agree everywhere except possibly in the
part-name column. -/
def AMasterRowEqExceptName (r1 r2 : AMasterRow) : Prop :=
  r1.part_number = r2.part_number ∧ r1.storage_location = r2.storage_location ∧
    r1.rack = r2.rack ∧ r1.quantity_per_box = r2.quantity_per_box

/-! Concrete inputs used by witnesses and counterexamples. -/

/-- A 2-row matrix whose four required header cells all match, with an
arbitrary value in header position 3, and a non-empty frame part number. -/
def mC1good : List Row :=
  [[Cell.str "No", Cell.str "起点部品番号", Cell.str "工場", Cell.str "X", Cell.str "部品番号"],
   [Cell.blank, Cell.blank, Cell.blank, Cell.blank, Cell.str "FRAME12345"]]

/-- A 2-row matrix with correct headers whose row-1 part-number cell is blank. -/
def mC10blank : List Row :=
  [[Cell.str "No", Cell.str "起点部品番号", Cell.str "工場", Cell.blank, Cell.str "部品番号"],
   [Cell.blank, Cell.blank, Cell.blank, Cell.blank, Cell.blank]]

/-- A matrix with one A-parts data row: part number A123456, quantity 7. -/
def mC3 : List Row :=
  [[Cell.str "No", Cell.str "起点部品番号", Cell.str "工場", Cell.blank, Cell.str "部品番号"],
   [Cell.blank, Cell.blank, Cell.blank, Cell.blank, Cell.str "A123456",
    Cell.blank, Cell.blank, Cell.blank, Cell.blank, Cell.int 7]]

/-- An A-parts reference row for A123456 with 3 pieces per box. -/
def refsC3 : List ARefRow := [ARefRow.mk 1 "" "" "A123456" "PartX" "LocA" "R1" 3]

/-- The picking row the A-parts builder emits from mC3 and refsC3. -/
def pC3 : APickRow := APickRow.mk 1 "" "" "A123456" "PartX" 7 "LocA" "R1" 3 3 ""

/-- A matrix with one A-parts data row for the catalog hyperproperty. -/
def mC9 : List Row :=
  [[Cell.str "No", Cell.str "起点部品番号", Cell.str "工場", Cell.blank, Cell.str "部品番号"],
   [Cell.blank, Cell.blank, Cell.blank, Cell.blank, Cell.str "A123456",
    Cell.blank, Cell.blank, Cell.blank, Cell.blank, Cell.int 2]]

/-- An A-parts catalog naming A123456 "NameOne". -/
def aM1 : List AMasterRow :=
  [AMasterRow.mk (Cell.str "A123456") (Cell.str "NameOne") (Cell.str "Loc") (Cell.str "R1")
    (Cell.int 3)]

/-- The same catalog except the part name reads "NameTwo". -/
def aM2 : List AMasterRow :=
  [AMasterRow.mk (Cell.str "A123456") (Cell.str "NameTwo") (Cell.str "Loc") (Cell.str "R1")
    (Cell.int 3)]

/-- The option cells example: ["red", "-", "", "nan", "wide"] after the option
start column. -/
def option_example_row : Row :=
  List.replicate 11 Cell.blank ++
    [Cell.str "red", Cell.str "-", Cell.str "", Cell.str "nan", Cell.str "wide"]

/-! Helper lemmas -/

theorem calc_req_boxes_mul_ge (q b : Int) (hb : 0 < b) :
    q ≤ calculate_required_boxes q b * b := by
  unfold calculate_required_boxes
  rw [if_neg (not_le.mpr hb), Int.fdiv_eq_ediv _ hb.le]
  have h1 := Int.lt_ediv_add_one_mul_self (q + b - 1) hb
  have h1' : q + b - 1 + 1 ≤ ((q + b - 1) / b + 1) * b := Int.add_one_le_iff.mpr h1
  nlinarith [h1']

theorem calc_req_boxes_eq_ceil (q b : Int) (hb : 0 < b) :
    calculate_required_boxes q b = ⌈(q : ℚ) / (b : ℚ)⌉ := by
  unfold calculate_required_boxes
  rw [if_neg (not_le.mpr hb), Int.fdiv_eq_ediv _ hb.le]
  have hbQ : (0 : ℚ) < (b : ℚ) := by exact_mod_cast hb
  have h1 := Int.lt_ediv_add_one_mul_self (q + b - 1) hb
  have h1' : q + b - 1 + 1 ≤ ((q + b - 1) / b + 1) * b := Int.add_one_le_iff.mpr h1
  have h2 : (q + b - 1) / b * b ≤ q + b - 1 := Int.ediv_mul_le (q + b - 1) (Int.ne_of_gt hb)
  symm
  rw [Int.ceil_eq_iff]
  constructor
  · rw [lt_div_iff₀ hbQ]
    have h3 : ((q + b - 1) / b - 1) * b < q := by nlinarith
    exact_mod_cast h3
  · rw [div_le_iff₀ hbQ]
    have h4 : q ≤ (q + b - 1) / b * b := by nlinarith
    exact_mod_cast h4

/-! Claim theorems -/

/-- Claim C7: for all integers, the required-boxes computation returns 0 when
quantity_per_box is nonpositive, and otherwise the ceiling of
quantity / quantity_per_box: the code's (quantity + quantity_per_box - 1)
floor-divided by quantity_per_box equals that ceiling for every positive
divisor. -/
theorem C7_required_boxes_ceiling (quantity quantity_per_box : Int) :
    (quantity_per_box ≤ 0 → calculate_required_boxes quantity quantity_per_box = 0)
  ∧ (0 < quantity_per_box →
      calculate_required_boxes quantity quantity_per_box =
        ⌈(quantity : ℚ) / (quantity_per_box : ℚ)⌉) := by
  constructor
  · intro h
    unfold calculate_required_boxes
    rw [if_pos h]
  · intro h
    exact calc_req_boxes_eq_ceil quantity quantity_per_box h

/-- Witness for C7 at quantity 7, quantity_per_box 3 (and at a nonpositive
divisor): the computed value is the ceiling 3, and the guard returns 0. -/
theorem C7_required_boxes_ceiling_witness :
    (0 < (3 : Int) ∧ calculate_required_boxes 7 3 = ⌈(7 : ℚ) / (3 : ℚ)⌉)
  ∧ ((-2 : Int) ≤ 0 ∧ calculate_required_boxes 5 (-2) = 0) :=
  ⟨⟨by decide, (C7_required_boxes_ceiling 7 3).2 (by decide)⟩,
   ⟨by decide, (C7_required_boxes_ceiling 5 (-2)).1 (by decide)⟩⟩

/-- Claim C2, amended: when reading a master catalog fails, _load_master_dbs
raises MasterDBError, but create_reference_dbs catches it and the error that
actually propagates out of the Reference Resolver stage is ReferenceDBError
wrapping the master-catalog message — still a member of the single
PickingSystemError family, but of the reference-db kind, not the
master-catalog kind. -/
theorem C2_master_read_failure_wrapped (m : List Row)
    (cmRead : ReadOutcome (List CMMasterRow)) (aRead : ReadOutcome (List AMasterRow))
    (h : (∀ t, cmRead ≠ ReadOutcome.ok t) ∨ (∀ t, aRead ≠ ReadOutcome.ok t)) :
    ∃ inner : String,
      load_master_dbs cmRead aRead = Except.error (PSError.masterDBError inner)
      ∧ (PSError.masterDBError inner).kind = PSErrorKind.masterDB
      ∧ create_reference_dbs m cmRead aRead =
          Except.error (PSError.referenceDBError s!"参照DB作成エラー: {inner}")
      ∧ errKind (create_reference_dbs m cmRead aRead) = some PSErrorKind.referenceDB := by
  rcases h with hcm | ha
  · cases cmRead with
    | missing p => exact ⟨_, rfl, rfl, rfl, rfl⟩
    | unreadable msg => exact ⟨_, rfl, rfl, rfl, rfl⟩
    | ok t => exact absurd rfl (hcm t)
  · cases cmRead with
    | missing p => exact ⟨_, rfl, rfl, rfl, rfl⟩
    | unreadable msg => exact ⟨_, rfl, rfl, rfl, rfl⟩
    | ok t =>
        cases aRead with
        | missing p => exact ⟨_, rfl, rfl, rfl, rfl⟩
        | unreadable msg => exact ⟨_, rfl, rfl, rfl, rfl⟩
        | ok t2 => exact absurd rfl (ha t2)

/-- Witness for C2 (amended) at a concrete missing CM catalog file. -/
theorem C2_master_read_failure_wrapped_witness :
    errKind (create_reference_dbs [] (ReadOutcome.missing "x")
      (ReadOutcome.ok ([] : List AMasterRow))) = some PSErrorKind.referenceDB := by
  obtain ⟨e₀, h1, h2, h3, h4⟩ :=
    C2_master_read_failure_wrapped [] (ReadOutcome.missing "x")
      (ReadOutcome.ok ([] : List AMasterRow))
      (Or.inl (fun t hEq => ReadOutcome.noConfusion hEq))
  exact h4

/-- Counterexample to C2 as stated: with the CM catalog file missing, the
error propagating out of create_reference_dbs is of the reference-db kind,
not the master-catalog kind. -/
theorem C2_counterexample :
    errKind (create_reference_dbs [] (ReadOutcome.missing "CMマスタ.xlsx")
        (ReadOutcome.ok ([] : List AMasterRow))) = some PSErrorKind.referenceDB
  ∧ errKind (create_reference_dbs [] (ReadOutcome.missing "CMマスタ.xlsx")
        (ReadOutcome.ok ([] : List AMasterRow))) ≠ some PSErrorKind.masterDB :=
  ⟨rfl, by decide⟩

/-- A fold whose step either keeps the accumulator or appends one element
numbered length + 1 keeps the numbering column equal to 1..k. -/
theorem foldl_numbering {α : Type} (no : α → Nat) (step : List α → Row → List α)
    (h : ∀ acc row, step acc row = acc ∨
      ∃ x, step acc row = acc ++ [x] ∧ no x = acc.length + 1)
    (rows : List Row) (acc : List α) (hacc : acc.map no = List.range' 1 acc.length) :
    (rows.foldl step acc).map no = List.range' 1 (rows.foldl step acc).length := by
  induction rows generalizing acc with
  | nil => simpa using hacc
  | cons r rs ih =>
      simp only [List.foldl_cons]
      apply ih
      rcases h acc r with heq | ⟨x, heq, hno⟩
      · rw [heq]; exact hacc
      · rw [heq, List.map_append, hacc, List.length_append]
        simp [hno, List.range'_1_concat, Nat.add_comm]

theorem cm_ref_step_cases (master : List CMMasterRow) (acc : List CMRefRow) (row : Row) :
    cm_ref_step master acc row = acc ∨
      ∃ x, cm_ref_step master acc row = acc ++ [x] ∧ x.no = acc.length + 1 := by
  unfold cm_ref_step
  dsimp only
  split
  · exact Or.inl rfl
  split
  · exact Or.inl rfl
  cases find_cm_master master (safe_str (getCell row MATRIX_PART_NUMBER)) with
  | none => exact Or.inl rfl
  | some hit => exact Or.inr ⟨_, rfl, rfl⟩

theorem a_ref_step_cases (master : List AMasterRow) (acc : List ARefRow) (row : Row) :
    a_ref_step master acc row = acc ∨
      ∃ x, a_ref_step master acc row = acc ++ [x] ∧ x.no = acc.length + 1 := by
  unfold a_ref_step
  dsimp only
  split
  · exact Or.inl rfl
  split
  · exact Or.inl rfl
  cases find_a_parts_master master (safe_str (getCell row MATRIX_PART_NUMBER)) with
  | none => exact Or.inl rfl
  | some hit => exact Or.inr ⟨_, rfl, rfl⟩

/-- Claim C4: for every input matrix and master catalogs, the No column of each
emitted reference table (CM and A-parts alike) is exactly the contiguous
1-based sequence 1..k for its k emitted rows; skipped source rows emit no
partial row and consume no number. -/
theorem C4_reference_numbering (m : List Row) (cm_master : List CMMasterRow)
    (a_master : List AMasterRow) :
    (create_cm_reference_db m cm_master).map CMRefRow.no =
      List.range' 1 (create_cm_reference_db m cm_master).length
  ∧ (create_a_parts_reference_db m a_master).map ARefRow.no =
      List.range' 1 (create_a_parts_reference_db m a_master).length := by
  constructor
  · exact foldl_numbering CMRefRow.no (cm_ref_step cm_master)
      (cm_ref_step_cases cm_master) (m.drop 1) [] (by simp)
  · exact foldl_numbering ARefRow.no (a_ref_step a_master)
      (a_ref_step_cases a_master) (m.drop 1) [] (by simp)

theorem numberRows_cons {α : Type} (f : α → Nat → System720Row) (k : Nat) (x : α)
    (xs : List α) :
    numberRows f k (x :: xs) = f x k :: numberRows f (k + 1) xs := rfl

/-- The accumulating fold of System720Generator.generate appends rows numbered
consecutively from the running counter. -/
theorem foldl_720_lines {α : Type} (f : α → Nat → System720Row) (l : List α) :
    ∀ (acc : List System720Row) (k : Nat),
      l.foldl (fun st x => (st.1 ++ [f x st.2], st.2 + 1)) (acc, k) =
        (acc ++ numberRows f k l, k + l.length) := by
  induction l with
  | nil => intro acc k; simp [numberRows]
  | cons x xs ih =>
      intro acc k
      simp only [List.foldl_cons]
      rw [ih]
      simp [numberRows_cons, List.append_assoc]
      omega

theorem numberRows_map_line {α : Type} (f : α → Nat → System720Row)
    (hf : ∀ x n, (f x n).line_number = n) (l : List α) :
    ∀ k, (numberRows f k l).map System720Row.line_number = List.range' k l.length := by
  induction l with
  | nil => intro k; rfl
  | cons x xs ih =>
      intro k
      rw [numberRows_cons]
      simp [hf, ih (k + 1), List.range'_succ]

/-- Claim C5: the legacy-system generator emits all CM picking rows first (in
table order), then all A-parts picking rows when present, and the line numbers
are exactly 1..m+n, contiguous across both blocks, with CM occupying 1..m. -/
theorem C5_720_line_order (slip delivery : String) (cm : List CMPickRow)
    (a : Option (List APickRow)) :
    generate_720 slip delivery cm a =
      numberRows (cm_720_line slip delivery) 1 cm ++
        numberRows (a_720_line slip delivery) (cm.length + 1) (a720rows a)
  ∧ (generate_720 slip delivery cm a).map System720Row.line_number =
      List.range' 1 (cm.length + (a720rows a).length) := by
  have hcm := foldl_720_lines (cm_720_line slip delivery) cm [] 1
  have heq : generate_720 slip delivery cm a =
      numberRows (cm_720_line slip delivery) 1 cm ++
        numberRows (a_720_line slip delivery) (cm.length + 1) (a720rows a) := by
    unfold generate_720
    cases a with
    | none => simp [hcm, a720rows, numberRows]
    | some arows =>
        by_cases he : arows.isEmpty
        · have : arows = [] := List.isEmpty_iff.mp he
          subst this
          simp [hcm, a720rows, numberRows]
        · simp only [he, if_neg, Bool.false_eq_true, not_false_iff, if_false]
          rw [hcm, foldl_720_lines (a_720_line slip delivery) arows _ _]
          simp [a720rows, Nat.add_comm]
  refine ⟨heq, ?_⟩
  rw [heq, List.map_append,
    numberRows_map_line (cm_720_line slip delivery) (fun x n => rfl) cm 1,
    numberRows_map_line (a_720_line slip delivery) (fun x n => rfl) (a720rows a)
      (cm.length + 1)]
  have := List.range'_append_1 1 cm.length (a720rows a).length
  rw [Nat.add_comm 1 cm.length] at this
  rw [this, Nat.add_comm (a720rows a).length cm.length]

/-- The loop condition "value and value not in ['', '-', 'nan']" keeps exactly
the values option_keep keeps. -/
theorem extract_option_cond_eq (v : String) :
    (v != "" && !(v == "" || v == "-" || v == "nan")) = option_keep v := by
  unfold option_keep
  by_cases h1 : v = ""
  · subst h1; rfl
  · by_cases h2 : v = "-"
    · subst h2; rfl
    · by_cases h3 : v = "nan"
      · subst h3; rfl
      · simp [h1, h2, h3]

/-- The index loop of extract_options from position s is the filter of the
trimmed cells from position s to the row's end. -/
theorem extract_options_fold (l : Row) :
    ∀ (k s : Nat), s + k = l.length → ∀ (acc : List String),
      (List.range' s k).foldl (extract_option_step l) acc =
        acc ++ ((l.drop s).map safe_str).filter option_keep := by
  intro k
  induction k with
  | zero =>
      intro s hs acc
      have hd : l.drop s = [] := List.drop_eq_nil_of_le (by omega)
      simp [hd]
  | succ n ih =>
      intro s hs acc
      rw [List.range'_succ]
      simp only [List.foldl_cons]
      rw [ih (s + 1) (by omega)]
      have hlt : s < l.length := by omega
      have hdrop : l.drop s = l[s] :: l.drop (s + 1) := List.drop_eq_getElem_cons hlt
      rw [hdrop]
      have hget : getCell l s = l[s] := by
        unfold getCell
        rw [List.getD_eq_getElem?_getD, List.getElem?_eq_getElem hlt]
        rfl
      unfold extract_option_step
      dsimp only
      rw [hget, extract_option_cond_eq]
      simp only [List.map_cons, List.filter_cons]
      cases hk : option_keep (safe_str l[s]) with
      | false => simp [hk]
      | true => simp [hk, List.append_assoc]

theorem extract_options_eq (row_data : Row) (s : Nat) :
    extract_options row_data s = ((row_data.drop s).map safe_str).filter option_keep := by
  unfold extract_options
  by_cases h : s ≤ row_data.length
  · have hf := extract_options_fold row_data (row_data.length - s) s (by omega) []
    simpa using hf
  · have h1 : row_data.length - s = 0 := by omega
    have h2 : row_data.drop s = [] := List.drop_eq_nil_of_le (by omega)
    simp [h1, h2]

/-- Claim C8: for every matrix row, the formatted option string takes the cells
from the option-start column (index 11) to the row's end, trims each, drops
every value equal to "", "-", or "nan", and joins the survivors with " / ";
in particular the option cells ["red", "-", "", "nan", "wide"] yield exactly
"red / wide". -/
theorem C8_option_formatting (row_data : Row) :
    format_options (extract_options row_data OPTION_START_COL) =
      String.intercalate " / "
        (((row_data.drop OPTION_START_COL).map safe_str).filter option_keep)
  ∧ OPTION_START_COL = 11
  ∧ format_options (extract_options option_example_row OPTION_START_COL) = "red / wide" := by
  refine ⟨?_, rfl, by decide⟩
  rw [extract_options_eq]
  unfold format_options
  split
  · rename_i h; rw [h]; rfl
  · rfl

/-- Claim C6: the validity screen accepts a part-number cell value iff its
trimmed string is non-empty, has length in [6, 20], and matches no exclusion
pattern (case-insensitive prefix FRAME, SET, KIT); in particular every part
number of trimmed length 5 is rejected regardless of classification patterns,
which the screen never consults. -/
theorem C6_part_number_screen (part_number : String) :
    (is_valid_part_number part_number = true ↔
      (pyStrip part_number ≠ "" ∧ 6 ≤ (pyStrip part_number).length ∧
        (pyStrip part_number).length ≤ 20 ∧
        ∀ pat ∈ EXCLUDE_PART_PATTERNS, matches_exclude pat (pyStrip part_number) = false))
  ∧ ((pyStrip part_number).length = 5 → is_valid_part_number part_number = false) := by
  have hmain : is_valid_part_number part_number = true ↔
      (pyStrip part_number ≠ "" ∧ 6 ≤ (pyStrip part_number).length ∧
        (pyStrip part_number).length ≤ 20 ∧
        ∀ pat ∈ EXCLUDE_PART_PATTERNS, matches_exclude pat (pyStrip part_number) = false) := by
    unfold is_valid_part_number
    dsimp only
    split_ifs with h0 h1 h2 h3
    · simp only [Bool.false_eq_true, false_iff]
      intro hc
      exact hc.1 (by rw [h0]; decide)
    · simp [h1]
    · simp only [Bool.false_eq_true, false_iff]
      intro hc
      obtain ⟨hne, h6, h20, hall⟩ := hc
      simp only [Bool.or_eq_true, decide_eq_true_eq] at h2
      omega
    · simp only [Bool.false_eq_true, false_iff]
      intro hc
      obtain ⟨hne, h6, h20, hall⟩ := hc
      rw [List.any_eq_true] at h3
      obtain ⟨pat, hmem, hpat⟩ := h3
      rw [hall pat hmem] at hpat
      exact Bool.noConfusion hpat
    · simp only [true_iff]
      refine ⟨h1, ?_, ?_, ?_⟩
      · simp only [Bool.or_eq_true, decide_eq_true_eq, not_or] at h2
        omega
      · simp only [Bool.or_eq_true, decide_eq_true_eq, not_or] at h2
        omega
      · intro pat hmem
        by_contra hf
        rw [Bool.not_eq_false] at hf
        exact h3 (List.any_eq_true.mpr ⟨pat, hmem, hf⟩)
  refine ⟨hmain, ?_⟩
  intro h5
  cases hv : is_valid_part_number part_number with
  | false => rfl
  | true =>
      obtain ⟨_, h6, _, _⟩ := hmain.mp hv
      omega

/-- Witness for C6 at the length-5 part number "A1234": it is rejected. -/
theorem C6_part_number_screen_witness :
    (pyStrip "A1234").length = 5 ∧ is_valid_part_number "A1234" = false :=
  ⟨by decide, (C6_part_number_screen "A1234").2 (by decide)⟩

/-- Fold invariant of the A-parts picking builder: every emitted picking row
carries required_boxes computed from its own quantity and quantity_per_box,
and the validation table is the row-for-row image of the picking table. -/
theorem a_picking_fold_spec (m : List Row) (refs : List ARefRow) :
    ∀ (acc : List APickRow × List AValRow),
      (∀ p ∈ acc.1, p.required_boxes = calculate_required_boxes p.quantity p.quantity_per_box) →
      acc.2 = acc.1.map create_validation_row →
      (∀ p ∈ (refs.foldl (a_picking_step m) acc).1,
          p.required_boxes = calculate_required_boxes p.quantity p.quantity_per_box)
      ∧ (refs.foldl (a_picking_step m) acc).2 =
          (refs.foldl (a_picking_step m) acc).1.map create_validation_row := by
  induction refs with
  | nil => intro acc h1 h2; exact ⟨h1, h2⟩
  | cons r rs ih =>
      intro acc h1 h2
      simp only [List.foldl_cons]
      apply ih
      · unfold a_picking_step
        cases hf : find_matrix_row m (pyStrip r.part_number) with
        | none => exact h1
        | some matrix_row =>
            intro p hp
            dsimp only at hp
            rcases List.mem_append.mp hp with hp | hp
            · exact h1 p hp
            · rw [List.mem_singleton.mp hp]
              rfl
      · unfold a_picking_step
        cases hf : find_matrix_row m (pyStrip r.part_number) with
        | none => exact h2
        | some matrix_row =>
            dsimp only
            rw [List.map_append, h2]
            rfl

/-- Claim C3: for every emitted A-parts picking row with quantity_per_box > 0,
required_boxes * quantity_per_box >= quantity, and its validation row's verdict
is "OK" exactly when the recomputed quantity minus the required quantity is
>= 0 and "NG" otherwise — never the reverse.  The validation table is the
row-for-row image of the picking table under create_validation_row. -/
theorem C3_validation_verdict (m : List Row) (refs : List ARefRow) :
    ((create_a_parts_picking m refs).2 =
      (create_a_parts_picking m refs).1.map create_validation_row)
  ∧ ∀ p ∈ (create_a_parts_picking m refs).1,
      (0 < p.quantity_per_box → p.quantity ≤ p.required_boxes * p.quantity_per_box)
    ∧ ((create_validation_row p).verdict = "OK" ↔
        0 ≤ p.required_boxes * p.quantity_per_box - p.quantity)
    ∧ ((create_validation_row p).verdict = "NG" ↔
        p.required_boxes * p.quantity_per_box - p.quantity < 0) := by
  have h := a_picking_fold_spec m refs ([], []) (by intro p hp; cases hp) rfl
  refine ⟨h.2, ?_⟩
  intro p hp
  have hreq := h.1 p hp
  refine ⟨?_, ?_, ?_⟩
  · intro hb
    rw [hreq]
    exact calc_req_boxes_mul_ge p.quantity p.quantity_per_box hb
  · unfold create_validation_row
    dsimp only
    by_cases hd : 0 ≤ p.required_boxes * p.quantity_per_box - p.quantity
    · simp [hd]
    · simp [hd]
  · unfold create_validation_row
    dsimp only
    by_cases hd : 0 ≤ p.required_boxes * p.quantity_per_box - p.quantity
    · simp [hd]
      omega
    · simp [hd]
      omega

/-- Witness for C3 at a concrete matrix and reference table: the single
emitted row has quantity 7, three per box, three required boxes, and its
validation row reads OK. -/
theorem C3_validation_verdict_witness :
    (create_a_parts_picking mC3 refsC3).1 = [pC3]
  ∧ 0 < pC3.quantity_per_box
  ∧ pC3.quantity ≤ pC3.required_boxes * pC3.quantity_per_box
  ∧ (create_validation_row pC3).verdict = "OK" := by
  have hlist : (create_a_parts_picking mC3 refsC3).1 = [pC3] := by decide
  have hmem : pC3 ∈ (create_a_parts_picking mC3 refsC3).1 := by
    rw [hlist]; exact List.mem_singleton.mpr rfl
  have h := (C3_validation_verdict mC3 refsC3).2 pC3 hmem
  exact ⟨hlist, by decide, h.1 (by decide), h.2.1.mpr (by decide)⟩

/-- Catalog lookup on two catalogs equal except in the part-name column agrees
on hit/miss and on every field the reference builder reads (storage location,
rack, quantity per box). -/
theorem find_a_master_congr (pn : String) (a1 a2 : List AMasterRow)
    (h : List.Forall₂ AMasterRowEqExceptName a1 a2) :
    Option.map (fun hit => (hit.storage_location, hit.rack, hit.quantity_per_box))
        (find_a_parts_master a1 pn) =
      Option.map (fun hit => (hit.storage_location, hit.rack, hit.quantity_per_box))
        (find_a_parts_master a2 pn) := by
  induction h with
  | nil => rfl
  | cons hr hrest ih =>
      rename_i r1 r2 l1 l2
      unfold find_a_parts_master at ih ⊢
      simp only [List.find?]
      rw [hr.1]
      cases hc : cellEqStr r2.part_number pn with
      | false => simp only [hc]; exact ih
      | true =>
          simp only [hc]
          rw [hr.2.1, hr.2.2.1, hr.2.2.2]
          rfl

/-- The A-parts reference loop body does not depend on the catalog's part-name
column. -/
theorem a_ref_step_congr (a1 a2 : List AMasterRow)
    (h : List.Forall₂ AMasterRowEqExceptName a1 a2) (acc : List ARefRow) (row : Row) :
    a_ref_step a1 acc row = a_ref_step a2 acc row := by
  unfold a_ref_step
  dsimp only
  split_ifs with h1 h2
  all_goals try rfl
  have hm := find_a_master_congr (safe_str (getCell row MATRIX_PART_NUMBER)) a1 a2 h
  cases hf1 : find_a_parts_master a1 (safe_str (getCell row MATRIX_PART_NUMBER)) with
  | none =>
      cases hf2 : find_a_parts_master a2 (safe_str (getCell row MATRIX_PART_NUMBER)) with
      | none => rfl
      | some hit2 => rw [hf1, hf2] at hm; exact absurd hm (by simp)
  | some hit1 =>
      cases hf2 : find_a_parts_master a2 (safe_str (getCell row MATRIX_PART_NUMBER)) with
      | none => rw [hf1, hf2] at hm; exact absurd hm (by simp)
      | some hit2 =>
          rw [hf1, hf2] at hm
          simp at hm
          obtain ⟨e1, e2, e3⟩ := hm
          dsimp only
          rw [e1, e2, e3]

theorem foldl_congr_fun {α β : Type} (f g : β → α → β) (h : ∀ b a, f b a = g b a) :
    ∀ (l : List α) (b : β), l.foldl f b = l.foldl g b := by
  intro l
  induction l with
  | nil => intro b; rfl
  | cons x xs ih =>
      intro b
      simp only [List.foldl_cons]
      rw [h b x]
      exact ih _

/-- Claim C9: the A-parts master catalog's part-name column never influences
any output.  Two runs whose catalogs differ only in part-name values produce
identical A-parts reference, picking, validation, and legacy tables (the CM
tables never read this catalog). -/
theorem C9_part_name_no_influence (m : List Row) (a1 a2 : List AMasterRow)
    (h : List.Forall₂ AMasterRowEqExceptName a1 a2)
    (slip delivery : String) (cm_picking : List CMPickRow) :
    create_a_parts_reference_db m a1 = create_a_parts_reference_db m a2
  ∧ create_a_parts_picking m (create_a_parts_reference_db m a1) =
      create_a_parts_picking m (create_a_parts_reference_db m a2)
  ∧ generate_720 slip delivery cm_picking
        (some (create_a_parts_picking m (create_a_parts_reference_db m a1)).1) =
      generate_720 slip delivery cm_picking
        (some (create_a_parts_picking m (create_a_parts_reference_db m a2)).1) := by
  have h1 : create_a_parts_reference_db m a1 = create_a_parts_reference_db m a2 := by
    unfold create_a_parts_reference_db
    exact foldl_congr_fun _ _ (fun acc row => a_ref_step_congr a1 a2 h acc row) (m.drop 1) []
  exact ⟨h1, by rw [h1], by rw [h1]⟩

/-- Witness for C9: two concrete catalogs that differ only in the part name of
A123456 yield identical reference tables and legacy sheets. -/
theorem C9_part_name_no_influence_witness :
    aM1 ≠ aM2
  ∧ create_a_parts_reference_db mC9 aM1 = create_a_parts_reference_db mC9 aM2
  ∧ generate_720 "20260101-001" "2026-01-08" []
        (some (create_a_parts_picking mC9 (create_a_parts_reference_db mC9 aM1)).1) =
      generate_720 "20260101-001" "2026-01-08" []
        (some (create_a_parts_picking mC9 (create_a_parts_reference_db mC9 aM2)).1) := by
  have h := C9_part_name_no_influence mC9 aM1 aM2
    (List.Forall₂.cons ⟨rfl, rfl, rfl, rfl⟩ List.Forall₂.nil) "20260101-001" "2026-01-08" []
  exact ⟨by decide, h.1, h.2.2⟩

/-- One header check appends one error exactly when the cell is bad. -/
theorem header_step_length (m : List Row) (init : List String) (p : Nat × String) :
    (header_check_step m init p).length =
      init.length + (if header_cell_bad m p then 1 else 0) := by
  unfold header_check_step
  by_cases hw : dfWidth m ≤ p.1
  · rw [if_pos hw]
    have hb : header_cell_bad m p = true := by
      unfold header_cell_bad
      rw [decide_eq_true hw]
      exact Bool.true_or _
    rw [hb]
    simp
  · rw [if_neg hw]
    dsimp only
    by_cases hv : safe_str (getCell (m.getD 0 []) p.1) ≠ p.2
    · rw [if_pos hv]
      have hb : header_cell_bad m p = true := by
        unfold header_cell_bad
        rw [decide_eq_true hv]
        exact Bool.or_true _
      rw [hb]
      simp
    · rw [if_neg hv]
      have hb : header_cell_bad m p = false := by
        unfold header_cell_bad
        rw [decide_eq_false hw, decide_eq_false hv]
        rfl
      rw [hb]
      simp

theorem header_fold_length (m : List Row) :
    ∀ (hs : List (Nat × String)) (init : List String),
      (hs.foldl (header_check_step m) init).length =
        init.length + hs.countP (header_cell_bad m) := by
  intro hs
  induction hs with
  | nil => intro init; simp
  | cons p ps ih =>
      intro init
      simp only [List.foldl_cons, List.countP_cons]
      rw [ih, header_step_length]
      omega

/-- Claim C1, amended: for every matrix, the validator requires at least two
rows and checks exactly four fixed header cells — positions 0 "No",
1 start part, 2 factory, 4 part number — against the expected labels
(case-sensitive, whitespace-trimmed), reporting one error per failing header
cell (mismatch or missing column, not just the first), and validation succeeds
only when zero header errors exist. -/
theorem C1_header_checks (input_stem : String) (m : List Row) (h2 : 2 ≤ m.length) :
    required_headers = [(0, "No"), (1, "起点部品番号"), (2, "工場"), (4, "部品番号")]
  ∧ (headerErrors m).length = required_headers.countP (header_cell_bad m)
  ∧ ((validate_input_file input_stem m).is_valid = true ↔
      (headerErrors m = [] ∧ frame_part_number m ≠ ""))
  ∧ ∀ m' : List Row, m'.length < 2 →
      (validate_input_file input_stem m').is_valid = false := by
  refine ⟨rfl, by simpa using header_fold_length m required_headers [], ?_, ?_⟩
  · unfold validate_input_file
    rw [if_neg (by omega)]
    dsimp only
    by_cases he : headerErrors m = []
    · rw [if_neg (by simp [he])]
      by_cases hf : frame_part_number m = ""
      · rw [if_pos hf]
        simp [he, hf]
      · rw [if_neg hf]
        simp [he, hf]
    · rw [if_pos he]
      simp [he]
  · intro m' hlt
    unfold validate_input_file
    rw [if_pos hlt]

/-- Counterexample to C1 as stated: the validator checks four fixed header
cells, not five; a matrix whose row 0 carries the four expected labels and an
arbitrary value everywhere else validates successfully. -/
theorem C1_counterexample :
    required_headers.length = 4
  ∧ required_headers.length ≠ 5
  ∧ (validate_input_file "FRAME12345" mC1good).is_valid = true :=
  ⟨rfl, by decide, by decide⟩

/-- Witness for C1 (amended) at a concrete valid 2-row matrix. -/
theorem C1_header_checks_witness :
    2 ≤ mC1good.length ∧ (validate_input_file "FRAME12345" mC1good).is_valid = true := by
  refine ⟨by decide, ?_⟩
  exact ((C1_header_checks "FRAME12345" mC1good (by decide)).2.2.1).mpr
    ⟨by decide, by decide⟩

/-- Claim C10: even with matching headers and at least two rows, validation
fails with an error — not a warning — whenever row 1's part-number cell is
empty or missing, so a valid matrix always yields a non-empty frame part
number. -/
theorem C10_empty_frame_rejected (input_stem : String) (m : List Row)
    (h2 : 2 ≤ m.length) (hh : headerErrors m = []) (hf : frame_part_number m = "") :
    (validate_input_file input_stem m).is_valid = false
  ∧ (validate_input_file input_stem m).errors = ["フレーム品番が取得できません"]
  ∧ (validate_input_file input_stem m).warnings = []
  ∧ ∀ (stem' : String) (m' : List Row),
      (validate_input_file stem' m').is_valid = true → frame_part_number m' ≠ "" := by
  have hres : validate_input_file input_stem m =
      ValidationResult.mk false ["フレーム品番が取得できません"] [] := by
    unfold validate_input_file
    rw [if_neg (by omega)]
    dsimp only
    rw [if_neg (by simp [hh]), if_pos hf]
  refine ⟨by rw [hres], by rw [hres], by rw [hres], ?_⟩
  intro stem' m' hv hfr
  unfold validate_input_file at hv
  by_cases hlt : m'.length < 2
  · rw [if_pos hlt] at hv
    exact Bool.noConfusion hv
  · rw [if_neg hlt] at hv
    dsimp only at hv
    by_cases he : headerErrors m' = []
    · rw [if_neg (by simp [he]), if_pos hfr] at hv
      exact Bool.noConfusion hv
    · rw [if_pos he] at hv
      exact Bool.noConfusion hv

/-- Witness for C10 at a concrete matrix with correct headers and a blank
row-1 part-number cell. -/
theorem C10_empty_frame_rejected_witness :
    (validate_input_file "X" mC10blank).is_valid = false
  ∧ (validate_input_file "X" mC10blank).errors ≠ [] := by
  have h := C10_empty_frame_rejected "X" mC10blank (by decide) (by decide) (by decide)
  refine ⟨h.1, ?_⟩
  rw [h.2.1]
  decide

end Picking
